import Mathlib

/-!
Verification of the Antenna pointing controller
(`GS_embedded_teensy_2/Antenna.h`).

Shallow embedding conventions:
* C `float`/`double` degree arithmetic is modelled with `ℚ`;
* C `int` values (encoder units, turn counts, microstep counts) are `ℤ`;
* the C `(int)` cast of a floating value truncates toward zero (`ctrunc`);
* C `/` and `%` on `int` truncate toward zero (`Int.tdiv` / `Int.tmod`);
* the configuration macros of `define.h` (not in the sources) are the
  fields of a `Config` record;
* each `Stepper::step` call and each `delay` call is recorded as an event,
  so a method's observable behaviour is its list of events plus the
  updated `Antenna` state.
-/

/-- Configuration constants from `define.h` (values fixed at build time). -/
structure Config where
  encoders_max : Int
  az_north_encoder_val : Int
  az_max_rotation_deg : ℚ
  az_micro_step_per_turn : Int
  az_reduc : Int
  elev_zenith_encoder_val : Int
  elev_zenith_safety_margin_deg : ℚ
  elev_micro_step_per_turn : Int
  elev_reduc : Int
deriving DecidableEq

/-- The mutable state of the `Antenna` class: the only data member that is
not an external handle is `az_init_turn_count` (line 22). -/
structure Antenna where
  az_init_turn_count : Int
deriving DecidableEq

/-- Models line 65 of the constructor: `az_init_turn_count` is set to the
turn count read after the warm-up reads. -/
def Antenna.init (turn_count : Int) : Antenna :=
  ⟨turn_count⟩

/-- The sensor readings consumed by one `point_to` call: the azimuth
encoder position (line 111), the azimuth turn count (line 130) and the
elevation encoder position (line 162). -/
structure SensorState where
  az_pos : Int
  az_turns : Int
  elev_pos : Int
deriving DecidableEq

/-- Observable actions: a signed microstep command to one of the two
steppers, or a millisecond delay. -/
inductive Event where
  | stepAz (n : Int)
  | stepElev (n : Int)
  | delayMs (n : Int)
deriving DecidableEq

/-- C cast of a real value to `int`: truncation toward zero. -/
def ctrunc (q : ℚ) : Int :=
  q.num.tdiv q.den

/-- Line 107: `while (az_deg < 0.0){ az_deg += 360.0;}`. -/
def normalize_az (az_deg : ℚ) : ℚ :=
  if az_deg < 0 then normalize_az (az_deg + 360) else az_deg
termination_by (⌈-az_deg / 360⌉).toNat
decreasing_by
  rename_i h
  have h2 : ⌈-(az_deg + 360) / 360⌉ = ⌈-az_deg / 360⌉ - 1 := by
    have e : -(az_deg + 360) / 360 = -az_deg / 360 - 1 := by ring
    rw [e, Int.ceil_sub_one]
  have h3 : 0 < ⌈-az_deg / 360⌉ := by
    have : (0:ℚ) < -az_deg / 360 := by
      apply div_pos (by linarith) (by norm_num)
    exact Int.ceil_pos.mpr this
  rw [h2]
  omega

/-- Line 109: the azimuth encoder target
`(int)(az_deg / 360.0 * ENCODERS_MAX + AZ_NORTH_ENCODER_VAL) % ENCODERS_MAX`,
applied to the normalized angle of line 107. -/
def az_target_val (cfg : Config) (az_deg : ℚ) : Int :=
  (ctrunc (normalize_az az_deg / 360 * cfg.encoders_max +
    cfg.az_north_encoder_val)).tmod cfg.encoders_max

/-- Lines 117-126 and 168-177: the shortest-path rewrap of an encoder
difference, identical for the two axes. -/
def rewrap (encoders_max d : Int) : Int :=
  if |d| > encoders_max.tdiv 2 then
    if d < 0 then d + encoders_max else d - encoders_max
  else d

/-- Lines 113-126: the rewrapped azimuth difference
`az_encoder_val_diff` as a function of the target angle and the sensor
reading. -/
def az_main_diff (cfg : Config) (s : SensorState) (az_deg : ℚ) : Int :=
  rewrap cfg.encoders_max (az_target_val cfg az_deg - s.az_pos)

/-- Line 132: the predicted cumulative rotation
`((float)(az_current_turn_count - az_init_turn_count)
  + (az_current_encoder_val + az_encoder_val_diff)/ENCODERS_MAX ) * 360.0`.
Note `(az_current_encoder_val + az_encoder_val_diff)/ENCODERS_MAX` is C
`int` division, truncating toward zero. -/
def az_pred_deg (cfg : Config) (init tc current diff : Int) : ℚ :=
  (((tc - init : Int) : ℚ) +
    (((current + diff).tdiv cfg.encoders_max : Int) : ℚ)) * 360

/-- Modelled from the spec: the predicted cumulative rotation written with
a real (fractional) quotient `(current + diff)/encoder_max`, as the spec's
formula reads; `define.h` is not among the sources, and this definition
exists only to be compared with `az_pred_deg`, which is what line 132
computes. -/
def az_pred_deg_spec (cfg : Config) (init tc current diff : Int) : ℚ :=
  (((tc - init : Int) : ℚ) +
    ((current : ℚ) + (diff : ℚ)) / (cfg.encoders_max : ℚ)) * 360

/-- The predicted rotation as `point_to` computes it from the sensor
state (lines 130-132). -/
def az_pred (cfg : Config) (a : Antenna) (s : SensorState) (az_deg : ℚ) : ℚ :=
  az_pred_deg cfg a.az_init_turn_count s.az_turns s.az_pos
    (az_main_diff cfg s az_deg)

/-- Lines 134-139: the corrective cable-untangling commands — a full
revolution of microsteps, negative when the predicted rotation exceeds
`AZ_MAX_ROTATION_DEG`, positive when it is below the negated bound. -/
def az_corr_events (cfg : Config) (pred : ℚ) : List Event :=
  (if pred > cfg.az_max_rotation_deg then
    [Event.stepAz (-(cfg.az_micro_step_per_turn * cfg.az_reduc))] else []) ++
  (if pred < -cfg.az_max_rotation_deg then
    [Event.stepAz (cfg.az_micro_step_per_turn * cfg.az_reduc)] else [])

/-- Lines 141 and 179: conversion of an encoder difference to a microstep
count, `(float)diff / ENCODERS_MAX * REDUC * MICRO_STEP_PER_TURN`
truncated by the assignment to `int`. -/
def steps_of_diff (encoders_max reduc micro_step_per_turn d : Int) : Int :=
  ctrunc ((d : ℚ) / (encoders_max : ℚ) * (reduc : ℚ) *
    (micro_step_per_turn : ℚ))

/-- Lines 149-154: the elevation safety clamp, first capping at
`90 - ELEV_ZENITH_SAFETY_MARGIN_DEG`, then flooring at `0`. -/
def clamp_elev (cfg : Config) (elev_deg : ℚ) : ℚ :=
  let e1 := if elev_deg > 90 - cfg.elev_zenith_safety_margin_deg then
    90 - cfg.elev_zenith_safety_margin_deg else elev_deg
  if e1 < 0 then 0 else e1

/-- Line 158: `ELEV_HORIZON_ENCODER_OFFSET_VAL =
(int)(ELEV_ZENITH_ENCODER_VAL - ENCODERS_MAX/4 + ENCODERS_MAX) % ENCODERS_MAX`. -/
def elev_horizon_offset (cfg : Config) : Int :=
  (cfg.elev_zenith_encoder_val - cfg.encoders_max.tdiv 4 +
    cfg.encoders_max).tmod cfg.encoders_max

/-- Line 160: the elevation encoder target
`(int)(elev_deg / 360.0 * ENCODERS_MAX + ELEV_HORIZON_ENCODER_OFFSET_VAL)
% ENCODERS_MAX`. -/
def elev_target_val (cfg : Config) (elev_deg : ℚ) : Int :=
  (ctrunc (elev_deg / 360 * cfg.encoders_max +
    elev_horizon_offset cfg)).tmod cfg.encoders_max

/-- Lines 160-177: the rewrapped elevation difference
`elev_encoder_val_diff`, computed from the clamped angle. -/
def elev_main_diff (cfg : Config) (s : SensorState) (elev_deg : ℚ) : Int :=
  rewrap cfg.encoders_max
    (elev_target_val cfg (clamp_elev cfg elev_deg) - s.elev_pos)

/-- Lines 141-143 and 179-181: the two unconditional step commands of a
`point_to` call — the main azimuth step, then the elevation step with its
sign inverted. -/
def main_events (cfg : Config) (s : SensorState) (az_deg elev_deg : ℚ) :
    List Event :=
  [Event.stepAz (steps_of_diff cfg.encoders_max cfg.az_reduc
      cfg.az_micro_step_per_turn (az_main_diff cfg s az_deg)),
   Event.stepElev (-(steps_of_diff cfg.encoders_max cfg.elev_reduc
      cfg.elev_micro_step_per_turn (elev_main_diff cfg s elev_deg)))]

/-- Lines 102-183: `point_to(az_deg, elev_deg)`. It writes no data member,
and issues the corrective azimuth commands (if any), the main azimuth
step, then the elevation step. -/
def point_to (cfg : Config) (a : Antenna) (s : SensorState)
    (az_deg elev_deg : ℚ) : Antenna × List Event :=
  (a, az_corr_events cfg (az_pred cfg a s az_deg) ++
    main_events cfg s az_deg elev_deg)

/-- Lines 78-87: `go_home()` reads the turn count `tc`, steps the azimuth
stepper by `(tc - az_init_turn_count)*AZ_MICRO_STEP_PER_TURN*AZ_REDUC`,
then calls `point_to(0, 90 - ELEV_ZENITH_SAFETY_MARGIN_DEG)`; `s` is the
sensor state read by that inner call. -/
def go_home (cfg : Config) (a : Antenna) (tc : Int) (s : SensorState) :
    Antenna × List Event :=
  let unwind := Event.stepAz ((tc - a.az_init_turn_count) *
    cfg.az_micro_step_per_turn * cfg.az_reduc)
  let r := point_to cfg a s 0 (90 - cfg.elev_zenith_safety_margin_deg)
  (r.1, unwind :: r.2)

/-- Lines 89-97: `empty_water()` = `point_to(0, 60)`, `delay(3000)`,
`go_home()`; `s1` is the sensor state of the first call, `tc` and `s2`
those read inside `go_home`. -/
def empty_water (cfg : Config) (a : Antenna) (s1 : SensorState) (tc : Int)
    (s2 : SensorState) : Antenna × List Event :=
  let r1 := point_to cfg a s1 0 60
  let r2 := go_home cfg r1.1 tc s2
  (r2.1, r1.2 ++ Event.delayMs 3000 :: r2.2)

/-- A plausible concrete configuration used to instantiate hypotheses:
4096-count encoders, north reference at 0, and positive gearing. -/
def sampleConfig : Config where
  encoders_max := 4096
  az_north_encoder_val := 0
  az_max_rotation_deg := 540
  az_micro_step_per_turn := 1600
  az_reduc := 30
  elev_zenith_encoder_val := 1000
  elev_zenith_safety_margin_deg := 5
  elev_micro_step_per_turn := 1600
  elev_reduc := 30

/-! ## Helper lemmas -/

/-- The normalization loop leaves a nonnegative input unchanged. -/
theorem normalize_az_of_nonneg (x : ℚ) (h : 0 ≤ x) : normalize_az x = x := by
  rw [normalize_az]
  simp [not_lt.mpr h]

/-- On nonnegative rationals, C truncation toward zero is the floor. -/
theorem ctrunc_of_nonneg (q : ℚ) (h : 0 ≤ q) : ctrunc q = ⌊q⌋ := by
  rw [ctrunc, Rat.floor_def,
    Int.tdiv_eq_ediv (Rat.num_nonneg.mpr h) (Int.ofNat_nonneg q.den)]

/-- The elevation clamp never returns a negative angle. -/
theorem clamp_elev_nonneg (cfg : Config) (e : ℚ) : 0 ≤ clamp_elev cfg e := by
  simp only [clamp_elev]
  split_ifs <;> linarith

/-- A `point_to` call issues only stepper commands, never a delay. -/
theorem point_to_no_delay (cfg : Config) (a : Antenna) (s : SensorState)
    (az el : ℚ) (n : Int) : Event.delayMs n ∉ (point_to cfg a s az el).2 := by
  rw [point_to, az_corr_events]
  split_ifs <;> simp [main_events]

/-- Concrete evaluation of the azimuth target of the `point_to(350, _)`
scenario on the 4096-count configuration: `350/360*4096 = 3982.22…`,
truncated to `3982`. -/
theorem az_target_val_sample_350 : az_target_val sampleConfig 350 = 3982 := by
  unfold az_target_val
  have e : normalize_az 350 / 360 * (sampleConfig.encoders_max : ℚ) +
      (sampleConfig.az_north_encoder_val : ℚ) = 35840/9 := by
    rw [normalize_az_of_nonneg 350 (by norm_num)]
    norm_num [sampleConfig]
  rw [e, ctrunc_of_nonneg _ (by norm_num)]
  have h2 : ⌊(35840/9 : ℚ)⌋ = 3982 := by
    rw [Int.floor_eq_iff]
    norm_num
  rw [h2]
  decide

/-! ## Claim theorems -/

/-- Claim C1: in `point_to`, when the predicted cumulative azimuth
rotation exceeds `AZ_MAX_ROTATION_DEG` the controller issues exactly one
corrective full-revolution step in the negative direction before the main
azimuth step; symmetrically one positive full revolution when it is below
the negated bound; otherwise no corrective step.  The prediction is the
single value `az_pred`, computed once from the pre-move readings and not
re-evaluated after the corrective turn. -/
theorem point_to_cable_wrap (cfg : Config) (a : Antenna) (s : SensorState)
    (az el : ℚ) (hM : 0 ≤ cfg.az_max_rotation_deg) :
    (cfg.az_max_rotation_deg < az_pred cfg a s az →
      (point_to cfg a s az el).2 =
        Event.stepAz (-(cfg.az_micro_step_per_turn * cfg.az_reduc)) ::
          main_events cfg s az el) ∧
    (az_pred cfg a s az < -cfg.az_max_rotation_deg →
      (point_to cfg a s az el).2 =
        Event.stepAz (cfg.az_micro_step_per_turn * cfg.az_reduc) ::
          main_events cfg s az el) ∧
    (-cfg.az_max_rotation_deg ≤ az_pred cfg a s az →
      az_pred cfg a s az ≤ cfg.az_max_rotation_deg →
      (point_to cfg a s az el).2 = main_events cfg s az el) := by
  unfold point_to az_corr_events
  refine ⟨fun h1 => ?_, fun h2 => ?_, fun h3 h4 => ?_⟩
  · rw [if_pos h1, if_neg (by intro hx; linarith)]
    rfl
  · rw [if_neg (by intro hx; linarith), if_pos h2]
    rfl
  · rw [if_neg (not_lt.mpr h4), if_neg (not_lt.mpr h3)]
    rfl

/-- Claim C1 witness: the theorem applied to the sample configuration at
`point_to(0, 0)` from the zero sensor state. -/
theorem point_to_cable_wrap_witness :
    (0:ℚ) ≤ sampleConfig.az_max_rotation_deg ∧
    ((sampleConfig.az_max_rotation_deg <
        az_pred sampleConfig (Antenna.init 0) ⟨0, 0, 0⟩ 0 →
      (point_to sampleConfig (Antenna.init 0) ⟨0, 0, 0⟩ 0 0).2 =
        Event.stepAz (-(sampleConfig.az_micro_step_per_turn *
          sampleConfig.az_reduc)) ::
          main_events sampleConfig ⟨0, 0, 0⟩ 0 0) ∧
     (az_pred sampleConfig (Antenna.init 0) ⟨0, 0, 0⟩ 0 <
        -sampleConfig.az_max_rotation_deg →
      (point_to sampleConfig (Antenna.init 0) ⟨0, 0, 0⟩ 0 0).2 =
        Event.stepAz (sampleConfig.az_micro_step_per_turn *
          sampleConfig.az_reduc) ::
          main_events sampleConfig ⟨0, 0, 0⟩ 0 0) ∧
     (-sampleConfig.az_max_rotation_deg ≤
        az_pred sampleConfig (Antenna.init 0) ⟨0, 0, 0⟩ 0 →
      az_pred sampleConfig (Antenna.init 0) ⟨0, 0, 0⟩ 0 ≤
        sampleConfig.az_max_rotation_deg →
      (point_to sampleConfig (Antenna.init 0) ⟨0, 0, 0⟩ 0 0).2 =
        main_events sampleConfig ⟨0, 0, 0⟩ 0 0)) :=
  ⟨by norm_num [sampleConfig],
    point_to_cable_wrap sampleConfig (Antenna.init 0) ⟨0, 0, 0⟩ 0 0
      (by norm_num [sampleConfig])⟩

/-- Claim C2 counterexample: with a 4096-count encoder, turn counts equal,
`current = 0` and a rewrapped `diff = 2048`, line 132's integer quotient
gives a predicted rotation of `0` degrees where the spec's real-quotient
formula gives `180`. -/
theorem az_pred_deg_int_div_cex :
    az_pred_deg sampleConfig 0 0 0 2048 ≠
      az_pred_deg_spec sampleConfig 0 0 0 2048 := by
  have h : ((0:Int) + 2048).tdiv sampleConfig.encoders_max = 0 := by decide
  rw [az_pred_deg, az_pred_deg_spec, h]
  norm_num [sampleConfig]

/-- Claim C2 (amended): the predicted rotation of line 132 uses the C
integer quotient of `current + diff` by `encoder_max`, truncated toward
zero; it equals the spec's real-quotient formula exactly when
`encoder_max` divides `current + diff`. -/
theorem az_pred_deg_eq_spec_iff (cfg : Config) (init tc current diff : Int)
    (hm : 0 < cfg.encoders_max) :
    az_pred_deg cfg init tc current diff =
        az_pred_deg_spec cfg init tc current diff ↔
      cfg.encoders_max ∣ (current + diff) := by
  have hm0 : (cfg.encoders_max : ℚ) ≠ 0 := by
    exact_mod_cast hm.ne'
  rw [az_pred_deg, az_pred_deg_spec]
  constructor
  · intro h
    have h1 : (((current + diff).tdiv cfg.encoders_max : Int) : ℚ) =
        ((current : ℚ) + (diff : ℚ)) / (cfg.encoders_max : ℚ) := by
      have := mul_right_cancel₀ (b := (360:ℚ)) (by norm_num) h
      linarith
    have h2 : (((current + diff).tdiv cfg.encoders_max : Int) : ℚ) *
        (cfg.encoders_max : ℚ) = ((current + diff : Int) : ℚ) := by
      rw [h1, div_mul_cancel₀ _ hm0]
      push_cast
      ring
    have h3 : (current + diff).tdiv cfg.encoders_max * cfg.encoders_max =
        current + diff := by
      exact_mod_cast h2
    exact Dvd.intro_left _ h3
  · intro hdvd
    obtain ⟨k, hk⟩ := hdvd
    have h4 : (current + diff).tdiv cfg.encoders_max = k := by
      rw [hk, Int.mul_tdiv_cancel_left _ hm.ne']
    have h5 : (current : ℚ) + (diff : ℚ) =
        (cfg.encoders_max : ℚ) * (k : ℚ) := by
      exact_mod_cast hk
    rw [h4, h5, mul_div_cancel_left₀ _ hm0]

/-- Claim C2 witness: the amended equivalence applied to the sample
configuration at `current + diff = 4096`, a whole number of encoder
revolutions. -/
theorem az_pred_deg_eq_spec_iff_witness :
    (0:Int) < sampleConfig.encoders_max ∧
    (az_pred_deg sampleConfig 0 0 0 4096 =
        az_pred_deg_spec sampleConfig 0 0 0 4096 ↔
      sampleConfig.encoders_max ∣ (0 + 4096)) :=
  ⟨by decide, az_pred_deg_eq_spec_iff sampleConfig 0 0 0 4096 (by decide)⟩

/-- Claim C3: for every target and current encoder value in
`[0, encoder_max)`, the shortest-path rewrap used by `point_to` on both
axes yields a diff with `|diff| ≤ encoder_max/2` (stated as
`2*|diff| ≤ encoder_max`) and `(current + diff) mod encoder_max = target`. -/
theorem rewrap_shortest (m t c : Int) (hm : 0 < m) (ht0 : 0 ≤ t) (ht : t < m)
    (hc0 : 0 ≤ c) (hc : c < m) :
    2 * |rewrap m (t - c)| ≤ m ∧ (c + rewrap m (t - c)) % m = t := by
  have hd2 : m.tdiv 2 = m / 2 := Int.tdiv_eq_ediv (le_of_lt hm) (by norm_num)
  have habs : ∀ x : Int, |x| = x.natAbs := fun x => Int.abs_eq_natAbs x
  constructor
  · rw [rewrap]
    split_ifs with h1 h2 <;> rw [habs] at * <;> rw [hd2] at * <;> omega
  · rw [rewrap]
    split_ifs with h1 h2
    · have e : c + (t - c + m) = t + m * 1 := by ring
      rw [e, Int.add_mul_emod_self_left, Int.emod_eq_of_lt ht0 ht]
    · have e : c + (t - c - m) = t + m * (-1) := by ring
      rw [e, Int.add_mul_emod_self_left, Int.emod_eq_of_lt ht0 ht]
    · have e : c + (t - c) = t := by ring
      rw [e, Int.emod_eq_of_lt ht0 ht]

/-- Claim C3 witness: the rewrap theorem at `encoder_max = 4096`,
`target = 3982`, `current = 0`. -/
theorem rewrap_shortest_witness :
    ((0:Int) < 4096 ∧ (0:Int) ≤ 3982 ∧ (3982:Int) < 4096 ∧
      (0:Int) ≤ 0 ∧ (0:Int) < 4096) ∧
    (2 * |rewrap 4096 (3982 - 0)| ≤ 4096 ∧
      (0 + rewrap 4096 (3982 - 0)) % 4096 = 3982) :=
  ⟨by decide, rewrap_shortest 4096 3982 0 (by decide) (by decide)
    (by decide) (by decide) (by decide)⟩

/-- Claim C4 counterexample: the normalization loop of line 107 only adds
360 while the angle is negative, so the input `720` — outside `[0, 360)` —
is left at `720`, which does not lie in `[0, 360)`. -/
theorem normalize_az_cex :
    normalize_az 720 = 720 ∧ ¬ normalize_az 720 < 360 := by
  have h : normalize_az 720 = 720 := normalize_az_of_nonneg 720 (by norm_num)
  rw [h]
  norm_num

/-- Claim C4 (amended): for every `azimuth_deg < 360` — in particular for
arbitrarily negative inputs — the normalized value lies in `[0, 360)` and
represents the same angle modulo 360, and the normalization terminates
(`normalize_az` is total); inputs at or above 360 are left unchanged by
the loop and are reduced only later by the `% ENCODERS_MAX` of line 109. -/
theorem normalize_az_spec (x : ℚ) (h : x < 360) :
    0 ≤ normalize_az x ∧ normalize_az x < 360 ∧
      ∃ k : ℕ, normalize_az x = x + 360 * k := by
  induction x using normalize_az.induct with
  | case1 x hx ih =>
    rw [normalize_az, if_pos hx]
    obtain ⟨h1, h2, k, hk⟩ := ih (by linarith)
    exact ⟨h1, h2, k + 1, by push_cast [hk]; ring⟩
  | case2 x hx =>
    rw [normalize_az, if_neg hx]
    exact ⟨not_lt.mp hx, h, 0, by norm_num⟩

/-- Claim C4 witness: the amended statement at `azimuth_deg = -30`. -/
theorem normalize_az_spec_witness :
    (-30:ℚ) < 360 ∧
    (0 ≤ normalize_az (-30) ∧ normalize_az (-30) < 360 ∧
      ∃ k : ℕ, normalize_az (-30) = -30 + 360 * k) :=
  ⟨by norm_num, normalize_az_spec (-30) (by norm_num)⟩

/-- Claim C5: `go_home()` first issues to the azimuth actuator exactly
`(current_turn_count - init_turn_count) * microsteps_per_turn *
gear_reduction` steps — the same command for any sensor position state
`s`, `s'`, bypassing the shortest-path logic — and the remainder of its
behaviour is exactly the call `point_to(0, 90 - zenith_safety_margin)`. -/
theorem go_home_spec (cfg : Config) (a : Antenna) (tc : Int)
    (s s' : SensorState) :
    (go_home cfg a tc s).2.head? =
      some (Event.stepAz ((tc - a.az_init_turn_count) *
        cfg.az_micro_step_per_turn * cfg.az_reduc)) ∧
    (go_home cfg a tc s).2.head? = (go_home cfg a tc s').2.head? ∧
    ((go_home cfg a tc s).2).tail =
      (point_to cfg a s 0 (90 - cfg.elev_zenith_safety_margin_deg)).2 :=
  ⟨rfl, rfl, rfl⟩

/-- Claim C6: `point_to` clamps every requested elevation angle to
`[0, 90 - zenith_safety_margin_deg]`: angles above the cap are replaced
by exactly the cap, negative angles by exactly `0`, and angles inside the
interval are used unchanged. -/
theorem clamp_elev_spec (cfg : Config) (e : ℚ)
    (h : cfg.elev_zenith_safety_margin_deg ≤ 90) :
    (90 - cfg.elev_zenith_safety_margin_deg < e →
      clamp_elev cfg e = 90 - cfg.elev_zenith_safety_margin_deg) ∧
    (e < 0 → clamp_elev cfg e = 0) ∧
    (0 ≤ e → e ≤ 90 - cfg.elev_zenith_safety_margin_deg →
      clamp_elev cfg e = e) := by
  unfold clamp_elev
  refine ⟨fun h1 => ?_, fun h2 => ?_, fun h3 h4 => ?_⟩
  · rw [if_pos h1, if_neg (not_lt.mpr (by linarith))]
  · rw [if_neg (show ¬(e > 90 - cfg.elev_zenith_safety_margin_deg) from
      not_lt.mpr (by linarith)), if_pos h2]
  · rw [if_neg (not_lt.mpr h4), if_neg (not_lt.mpr h3)]

/-- Claim C6 witness: the clamp theorem on the sample configuration at a
requested elevation of 100 degrees. -/
theorem clamp_elev_spec_witness :
    sampleConfig.elev_zenith_safety_margin_deg ≤ 90 ∧
    ((90 - sampleConfig.elev_zenith_safety_margin_deg < 100 →
      clamp_elev sampleConfig 100 =
        90 - sampleConfig.elev_zenith_safety_margin_deg) ∧
     ((100:ℚ) < 0 → clamp_elev sampleConfig 100 = 0) ∧
     ((0:ℚ) ≤ 100 →
      (100:ℚ) ≤ 90 - sampleConfig.elev_zenith_safety_margin_deg →
      clamp_elev sampleConfig 100 = 100)) :=
  ⟨by norm_num [sampleConfig],
    clamp_elev_spec sampleConfig 100 (by norm_num [sampleConfig])⟩

/-- Claim C7: the elevation horizon offset and target of `point_to` equal
`(zenith_value - encoder_max/4 + encoder_max) mod encoder_max` and
`(elevation_deg/360 * encoder_max + horizon_offset) mod encoder_max`
(with `/` and `%` the mathematical floor division and nonnegative
modulus), and the elevation command is issued with its sign inverted
relative to the computed diff. -/
theorem elev_point_spec (cfg : Config) (a : Antenna) (s : SensorState)
    (az e : ℚ) (hm : 0 < cfg.encoders_max)
    (hz : 0 ≤ cfg.elev_zenith_encoder_val) :
    elev_horizon_offset cfg =
      (cfg.elev_zenith_encoder_val - cfg.encoders_max / 4 +
        cfg.encoders_max) % cfg.encoders_max ∧
    elev_target_val cfg (clamp_elev cfg e) =
      (ctrunc (clamp_elev cfg e / 360 * cfg.encoders_max +
        elev_horizon_offset cfg)) % cfg.encoders_max ∧
    ∃ pre, (point_to cfg a s az e).2 =
      pre ++ [Event.stepElev (-(steps_of_diff cfg.encoders_max
        cfg.elev_reduc cfg.elev_micro_step_per_turn
        (elev_main_diff cfg s e)))] := by
  have hdiv4 : cfg.encoders_max.tdiv 4 = cfg.encoders_max / 4 :=
    Int.tdiv_eq_ediv hm.le (by norm_num)
  have hq4 : cfg.encoders_max / 4 ≤ cfg.encoders_max :=
    Int.ediv_le_self 4 hm.le
  have hoff : elev_horizon_offset cfg =
      (cfg.elev_zenith_encoder_val - cfg.encoders_max / 4 +
        cfg.encoders_max) % cfg.encoders_max := by
    rw [elev_horizon_offset, hdiv4,
      Int.tmod_eq_emod (by omega) hm.le]
  have hoff0 : 0 ≤ elev_horizon_offset cfg := by
    rw [hoff]
    exact Int.emod_nonneg _ hm.ne'
  refine ⟨hoff, ?_, ?_⟩
  · have harg : 0 ≤ clamp_elev cfg e / 360 * cfg.encoders_max +
        (elev_horizon_offset cfg : ℚ) := by
      have h1 : 0 ≤ clamp_elev cfg e / 360 * (cfg.encoders_max : ℚ) := by
        apply mul_nonneg
        · exact div_nonneg (clamp_elev_nonneg cfg e) (by norm_num)
        · exact_mod_cast hm.le
      have h2 : (0:ℚ) ≤ (elev_horizon_offset cfg : ℚ) := by
        exact_mod_cast hoff0
      linarith
    have hct : 0 ≤ ctrunc (clamp_elev cfg e / 360 * cfg.encoders_max +
        (elev_horizon_offset cfg : ℚ)) := by
      rw [ctrunc_of_nonneg _ harg]
      exact Int.floor_nonneg.mpr harg
    rw [elev_target_val, Int.tmod_eq_emod hct hm.le]
  · refine ⟨az_corr_events cfg (az_pred cfg a s az) ++
      [Event.stepAz (steps_of_diff cfg.encoders_max cfg.az_reduc
        cfg.az_micro_step_per_turn (az_main_diff cfg s az))], ?_⟩
    simp [point_to, main_events]

/-- Claim C7 witness: the elevation theorem on the sample configuration at
a requested elevation of 45 degrees from the zero sensor state. -/
theorem elev_point_spec_witness :
    ((0:Int) < sampleConfig.encoders_max ∧
      (0:Int) ≤ sampleConfig.elev_zenith_encoder_val) ∧
    (elev_horizon_offset sampleConfig =
      (sampleConfig.elev_zenith_encoder_val - sampleConfig.encoders_max / 4 +
        sampleConfig.encoders_max) % sampleConfig.encoders_max ∧
     elev_target_val sampleConfig (clamp_elev sampleConfig 45) =
      (ctrunc (clamp_elev sampleConfig 45 / 360 * sampleConfig.encoders_max +
        elev_horizon_offset sampleConfig)) % sampleConfig.encoders_max ∧
     ∃ pre, (point_to sampleConfig (Antenna.init 0) ⟨0, 0, 0⟩ 0 45).2 =
      pre ++ [Event.stepElev (-(steps_of_diff sampleConfig.encoders_max
        sampleConfig.elev_reduc sampleConfig.elev_micro_step_per_turn
        (elev_main_diff sampleConfig ⟨0, 0, 0⟩ 45)))]) :=
  ⟨⟨by decide, by decide⟩,
    elev_point_spec sampleConfig (Antenna.init 0) ⟨0, 0, 0⟩ 0 45
      (by decide) (by decide)⟩

/-- Claim C8: `empty_water()` is exactly `point_to(0, 60)`, then a
3000 ms hold, then the two sub-steps of `go_home()` — the azimuth unwind
step then `point_to(0, 90 - margin)` — with nothing else in between;
each `point_to` group issues only stepper commands. -/
theorem empty_water_spec (cfg : Config) (a : Antenna) (s1 : SensorState)
    (tc : Int) (s2 : SensorState) :
    (empty_water cfg a s1 tc s2).2 =
      (point_to cfg a s1 0 60).2 ++
        Event.delayMs 3000 ::
        Event.stepAz ((tc - a.az_init_turn_count) *
          cfg.az_micro_step_per_turn * cfg.az_reduc) ::
        (point_to cfg a s2 0 (90 - cfg.elev_zenith_safety_margin_deg)).2 ∧
    (∀ n : Int, Event.delayMs n ∉ (point_to cfg a s1 0 60).2) ∧
    (∀ n : Int, Event.delayMs n ∉
      (point_to cfg a s2 0 (90 - cfg.elev_zenith_safety_margin_deg)).2) :=
  ⟨rfl, fun n => point_to_no_delay cfg a s1 0 60 n,
    fun n => point_to_no_delay cfg a s2 0
      (90 - cfg.elev_zenith_safety_margin_deg) n⟩

/-- Claim C9 counterexample: on the 4096-count configuration with north
offset 0 and current reading 0, `point_to(350, _)` computes an azimuth
target of 3982 — not the 3981 the claim states — and a rewrapped diff of
-114, not -115. -/
theorem az_scenario_cex :
    az_target_val sampleConfig 350 ≠ 3981 ∧
    rewrap sampleConfig.encoders_max (az_target_val sampleConfig 350 - 0) ≠
      -115 := by
  rw [az_target_val_sample_350]
  exact ⟨by decide, by decide⟩

/-- Claim C9 (amended): with `encoder_max = 4096`, `zero_offset = 0` and
`current = 0`, `point_to(350, _)` computes the azimuth target
`⌊350/360 * 4096⌋ = 3982` and a pre-rewrap diff of 3982 which, being
greater than 2048, is rewrapped to `3982 - 4096 = -114`, so the commanded
motion is negative: backward through zero. -/
theorem az_scenario_spec :
    az_target_val sampleConfig 350 = 3982 ∧
    rewrap sampleConfig.encoders_max (az_target_val sampleConfig 350 - 0) =
      3982 - 4096 ∧
    rewrap sampleConfig.encoders_max (az_target_val sampleConfig 350 - 0) <
      0 := by
  rw [az_target_val_sample_350]
  exact ⟨rfl, by decide, by decide⟩

/-- Claim C10: `az_init_turn_count` is set once by the constructor to the
turn count read after warm-up, and every public operation — `point_to`,
`go_home`, `empty_water` — leaves it unchanged. -/
theorem az_init_turn_count_frame (cfg : Config) (tc0 tc : Int) (a : Antenna)
    (s s2 : SensorState) (az el : ℚ) :
    (Antenna.init tc0).az_init_turn_count = tc0 ∧
    (point_to cfg a s az el).1.az_init_turn_count = a.az_init_turn_count ∧
    (go_home cfg a tc s).1.az_init_turn_count = a.az_init_turn_count ∧
    (empty_water cfg a s tc s2).1.az_init_turn_count = a.az_init_turn_count :=
  ⟨rfl, rfl, rfl, rfl⟩
